import Mathlib

/-!
Shallow embedding of the rendering core of a canvas-painted data grid:
the cell-renderer hierarchy (`cellrenderer.ts`), the data-model
change-notification signals (`datamodel.ts`), and the demo grid scaffolding
(`TestHeader`, `TestModel`, `DataGrid`).

JavaScript values reaching the renderer contract are modelled by `JSValue`;
the mutable 2-D graphics context is modelled as a journal of drawing
operations (`List DrawOp`), appended to by each draw call.  JavaScript
reference equality on functions and configuration objects is modelled by
tagging them with a numeric identity.
-/

/-- A JavaScript value as seen by the cell-renderer contract: the data model
may hand any value to a cell, and the renderers test it for truthiness. -/
inductive JSValue where
  | null
  | undefined
  | bool (b : Bool)
  | num (n : Int)
  | str (s : String)
deriving DecidableEq, Repr

/-- JavaScript truthiness for the modelled values: `null`, `undefined`,
`false`, the number `0` and the empty string are falsy. -/
def JSValue.truthy : JSValue → Bool
  | .null => false
  | .undefined => false
  | .bool b => b
  | .num n => n != 0
  | .str s => s != ""

/-- JavaScript `value.toString()` for the modelled values (only ever invoked
on truthy values by the text renderer, so `null`/`undefined` never reach it). -/
def JSValue.toStr : JSValue → String
  | .null => "null"
  | .undefined => "undefined"
  | .bool b => if b then "true" else "false"
  | .num n => toString n
  | .str s => s

/-- One recorded operation on the `CanvasRenderingContext2D` graphics
context.  A draw call transforms a journal `List DrawOp` by appending. -/
inductive DrawOp where
  | setFillStyle (color : String)
  | fillRect (x y w h : Int)
  | setTextBaseline (mode : String)
  | fillText (text : String) (x y : ℚ)
  | beginPath
  | rect (x y w h : Int)
  | setStrokeStyle (color : String)
  | setLineWidth (w : Int)
  | stroke
deriving DecidableEq, Repr

/-- A background-color specification (`SimpleCellRenderer.BackgroundColor`):
either a CSS color string or a color function of `(row, column, value)`.
A function is identified by a numeric reference id, so that the JavaScript
`===` reference comparison is decidable; a `ColorEnv` gives each id its
behaviour. -/
inductive BGColor where
  | str (s : String)
  | func (fid : Nat)
deriving DecidableEq, Repr

/-- JavaScript truthiness of a background-color specification: a function
object is always truthy, a string is truthy iff nonempty. -/
def BGColor.truthy : BGColor → Bool
  | .str s => s != ""
  | .func _ => true

/-- Interpretation of color-function references: maps a function id and the
`(row, column, value)` arguments to the returned color string. -/
def ColorEnv : Type := Nat → Int → Int → JSValue → String

/-- A border configuration (`SimpleCellRenderer.Border`): a configuration
object (or array of parts) compared by JavaScript reference identity, hence
modelled as a reference id; `noBorder` stands for the falsy absent value. -/
inductive BorderVal where
  | noBorder
  | ref (id : Nat)
deriving DecidableEq, Repr

/-- The per-cell renderer options supplied by the data model
(`SimpleCellRenderer.IOptions`): an optional background-color specification
and an optional border configuration. -/
structure RendererOptions where
  backgroundColor : Option BGColor
  border : Option BorderVal
deriving DecidableEq, Repr

/-- The configuration data for one cell paint call (`CellRenderer.IConfig`). -/
structure CellConfig where
  x : Int
  y : Int
  width : Int
  height : Int
  row : Int
  column : Int
  value : JSValue
  options : Option RendererOptions
deriving DecidableEq, Repr

/-- The output cell-data record populated by `DataModel.cellData`
(`DataModel.ICellData`). -/
structure ICellData where
  value : JSValue
  renderer : String
  options : Option RendererOptions
deriving DecidableEq, Repr

/-- `TestHeader` from the demo: a uniform-size section geometry map with a
fixed `size` per section. -/
structure TestHeader where
  size : Int
deriving DecidableEq, Repr

/-- `TestHeader.sectionPosition(index) { return index * this.size; }` -/
def TestHeader.sectionPosition (h : TestHeader) (index : Int) : Int :=
  index * h.size

/-- `TestHeader.sectionSize(index) { return this.size; }` -/
def TestHeader.sectionSize (h : TestHeader) (_index : Int) : Int :=
  h.size

/-- `TestHeader.sectionAt(position) { return Math.floor(position / this.size); }`
Modelled as the floor of the exact rational quotient. -/
def TestHeader.sectionAt (h : TestHeader) (position : Int) : Int :=
  ⌊(position : ℚ) / (h.size : ℚ)⌋

/-- `Math.floor(a / b)` on integers with a positive divisor is integer
(Euclidean) division. -/
theorem floor_ratCast_div_eq_ediv (a b : Int) (hb : 0 < b) :
    ⌊(a : ℚ) / (b : ℚ)⌋ = a / b := by
  lift b to ℕ using hb.le
  exact_mod_cast Rat.floor_intCast_div_natCast a b

/-- C2: For the uniform-size section geometry map `TestHeader` with positive
section size, every index maps into its own section at both the first and the
last pixel: `sectionAt (sectionPosition i) = i` and
`sectionAt (sectionPosition i + sectionSize i - 1) = i` — sections tile the
axis with no gaps and no overlaps. -/
theorem testHeader_sectionAt_roundtrip (h : TestHeader) (hs : 0 < h.size) (i : Int) :
    h.sectionAt (h.sectionPosition i) = i ∧
    h.sectionAt (h.sectionPosition i + h.sectionSize i - 1) = i := by
  unfold TestHeader.sectionAt TestHeader.sectionPosition TestHeader.sectionSize
  rw [floor_ratCast_div_eq_ediv _ _ hs, floor_ratCast_div_eq_ediv _ _ hs]
  constructor
  · exact Int.mul_ediv_cancel i hs.ne'
  · have hrw : i * h.size + h.size - 1 = (h.size - 1) + i * h.size := by ring
    rw [hrw, Int.add_mul_ediv_right _ _ hs.ne',
      Int.ediv_eq_zero_of_lt (by omega) (by omega), zero_add]

/-- Witness for C2 at a concrete uniform map of section size 20 and index 3. -/
theorem testHeader_sectionAt_roundtrip_witness :
    (TestHeader.mk 20).sectionAt ((TestHeader.mk 20).sectionPosition 3) = 3 ∧
    (TestHeader.mk 20).sectionAt
      ((TestHeader.mk 20).sectionPosition 3 + (TestHeader.mk 20).sectionSize 3 - 1) = 3 :=
  testHeader_sectionAt_roundtrip (TestHeader.mk 20) (by decide) 3

/-- C7: For the uniform-size section geometry map `TestHeader` with positive
section size, `sectionPosition` is monotonically non-decreasing in the index;
adjacent sections are contiguous,
`sectionPosition (i+1) = sectionPosition i + sectionSize i`; and `sectionAt`
is the floor of `position / sectionSize`, the prescribed uniform-case inverse. -/
theorem testHeader_contiguity (h : TestHeader) (hs : 0 < h.size) :
    (∀ i j : Int, i ≤ j → h.sectionPosition i ≤ h.sectionPosition j) ∧
    (∀ i : Int, h.sectionPosition (i + 1) = h.sectionPosition i + h.sectionSize i) ∧
    (∀ p i : Int, h.sectionAt p = ⌊(p : ℚ) / (h.sectionSize i : ℚ)⌋) := by
  refine ⟨fun i j hij => ?_, fun i => ?_, fun p i => rfl⟩
  · exact mul_le_mul_of_nonneg_right hij hs.le
  · unfold TestHeader.sectionPosition TestHeader.sectionSize
    ring

/-- Witness for C7 at a concrete uniform map of section size 60. -/
theorem testHeader_contiguity_witness :
    (TestHeader.mk 60).sectionPosition 2 ≤ (TestHeader.mk 60).sectionPosition 5 ∧
    (TestHeader.mk 60).sectionPosition 3 =
      (TestHeader.mk 60).sectionPosition 2 + (TestHeader.mk 60).sectionSize 2 ∧
    (TestHeader.mk 60).sectionAt 130 = ⌊((130 : Int) : ℚ) / (((TestHeader.mk 60).sectionSize 0 : Int) : ℚ)⌋ :=
  ⟨(testHeader_contiguity (TestHeader.mk 60) (by decide)).1 2 5 (by decide),
   (testHeader_contiguity (TestHeader.mk 60) (by decide)).2.1 2,
   (testHeader_contiguity (TestHeader.mk 60) (by decide)).2.2 130 0⟩

/-- `SimpleCellRenderer.drawBackground` (signal-bearing variant of
`cellrenderer.ts`), translated clause by clause:
`let bgColor = (opts && opts.backgroundColor) || this._backgroundColor;`
`if (!bgColor) { return; }` then resolve a function spec via
`bgColor(config.row, config.column, config.value)`, `if (!color) { return; }`,
and finally `gc.fillStyle = color;`
`gc.fillRect(config.x - 1, config.y - 1, config.width + 1, config.height + 1)`. -/
def SimpleCellRenderer.drawBackground (env : ColorEnv) (own : BGColor)
    (gc : List DrawOp) (config : CellConfig) : List DrawOp :=
  let bgColor : BGColor :=
    match config.options with
    | none => own
    | some opts =>
      match opts.backgroundColor with
      | none => own
      | some c => if c.truthy then c else own
  if !bgColor.truthy then gc
  else
    let color : String :=
      match bgColor with
      | .str s => s
      | .func fid => env fid config.row config.column config.value
    if color = "" then gc
    else
      gc ++ [.setFillStyle color,
             .fillRect (config.x - 1) (config.y - 1) (config.width + 1) (config.height + 1)]

/-- Spec-worded two-tier resolution: the effective background specification is
a truthy `options.backgroundColor` from the cell's options when present,
otherwise the renderer instance's own stored background color. -/
def specEffectiveBackground (config : CellConfig) (own : BGColor) : BGColor :=
  match config.options.bind (fun o => o.backgroundColor) with
  | some c => if c.truthy then c else own
  | none => own

/-- Spec-worded color resolution: if the effective specification is a function
it is invoked with `(row, column, value)`; an absent/empty specification or a
resulting empty color yields `none` (nothing is painted). -/
def specResolvedColor (env : ColorEnv) (config : CellConfig) (own : BGColor) :
    Option String :=
  let spec := specEffectiveBackground config own
  if spec.truthy then
    let c : String :=
      match spec with
      | .str s => s
      | .func fid => env fid config.row config.column config.value
    if c = "" then none else some c
  else none

/-- C1: `drawBackground` follows exactly the spec-worded resolution: options
first (when truthy), else the instance default; a function specification is
invoked with `(row, column, value)`; and when the resolved specification or
resulting color is absent or empty the graphics journal is left untouched
(a no-op, not an error), otherwise the fill is recorded. -/
theorem drawBackground_resolution (env : ColorEnv) (own : BGColor)
    (gc : List DrawOp) (config : CellConfig) :
    SimpleCellRenderer.drawBackground env own gc config =
      match specResolvedColor env config own with
      | none => gc
      | some c =>
          gc ++ [.setFillStyle c,
                 .fillRect (config.x - 1) (config.y - 1)
                   (config.width + 1) (config.height + 1)] := by
  unfold SimpleCellRenderer.drawBackground specResolvedColor specEffectiveBackground
  rcases config with ⟨x, y, w, h, r, c, v, opts⟩
  rcases opts with _ | ⟨bg, bd⟩
  · dsimp only [Option.bind]
    rcases own with s | fid
    · by_cases hs : s = "" <;> simp [BGColor.truthy, hs]
    · simp only [BGColor.truthy]
      by_cases hc : env fid r c v = "" <;> simp [hc]
  · rcases bg with _ | bgc
    · dsimp only [Option.bind]
      rcases own with s | fid
      · by_cases hs : s = "" <;> simp [BGColor.truthy, hs]
      · simp only [BGColor.truthy]
        by_cases hc : env fid r c v = "" <;> simp [hc]
    · dsimp only [Option.bind]
      by_cases ht : bgc.truthy
      · simp only [ht, if_pos]
        rcases bgc with s | fid
        · have hs : s ≠ "" := by simpa [BGColor.truthy] using ht
          simp [BGColor.truthy, hs]
        · simp only [BGColor.truthy]
          by_cases hc : env fid r c v = "" <;> simp [hc]
      · simp only [ht, if_neg, Bool.false_eq_true, not_false_iff]
        rcases own with s | fid
        · by_cases hs : s = "" <;> simp [BGColor.truthy, hs, ht]
        · simp only [BGColor.truthy]
          by_cases hc : env fid r c v = "" <;> simp [hc, ht]

/-- The set of pixels painted by `fillRect(rx, ry, rw, rh)`: integer pixel
`(px, py)` with `rx ≤ px < rx + rw` and `ry ≤ py < ry + rh`. -/
def inFillRect (rx ry rw rh px py : Int) : Prop :=
  rx ≤ px ∧ px < rx + rw ∧ ry ≤ py ∧ py < ry + rh

instance (rx ry rw rh px py : Int) : Decidable (inFillRect rx ry rw rh px py) := by
  unfold inFillRect
  infer_instance

/-- The permitted one-pixel bleed box of the renderer contract: pixels from
`(x - 1, y - 1)` to `(x + width - 1, y + height - 1)` inclusive. -/
def inBleedBox (config : CellConfig) (px py : Int) : Prop :=
  config.x - 1 ≤ px ∧ px ≤ config.x + config.width - 1 ∧
  config.y - 1 ≤ py ∧ py ≤ config.y + config.height - 1

instance (config : CellConfig) (px py : Int) : Decidable (inBleedBox config px py) := by
  unfold inBleedBox
  infer_instance

/-- C4: when `drawBackground` paints at all, the only rectangle it fills is
`fillRect(x - 1, y - 1, width + 1, height + 1)`, and every pixel of that
rectangle lies inside the permitted bleed box from `(x - 1, y - 1)` to
`(x + width - 1, y + height - 1)` — the call never draws outside the box. -/
theorem drawBackground_bleed_box (env : ColorEnv) (own : BGColor)
    (gc : List DrawOp) (config : CellConfig) (px py : Int) :
    (SimpleCellRenderer.drawBackground env own gc config = gc ∨
      ∃ c, SimpleCellRenderer.drawBackground env own gc config =
        gc ++ [.setFillStyle c,
               .fillRect (config.x - 1) (config.y - 1)
                 (config.width + 1) (config.height + 1)]) ∧
    (inFillRect (config.x - 1) (config.y - 1) (config.width + 1) (config.height + 1) px py →
      inBleedBox config px py) := by
  constructor
  · rw [drawBackground_resolution]
    cases specResolvedColor env config own with
    | none => exact Or.inl rfl
    | some c => exact Or.inr ⟨c, rfl⟩
  · intro hin
    obtain ⟨h1, h2, h3, h4⟩ := hin
    exact ⟨h1, by omega, h3, by omega⟩

/-- Witness for C4 at a concrete renderer, cell, and pixel: the top-left bleed
pixel `(-1, -1)` of a cell at the origin with extent `10 × 8` is inside the
fill rectangle, hence inside the permitted box. -/
theorem drawBackground_bleed_box_witness :
    (SimpleCellRenderer.drawBackground (fun _ _ _ _ => "") (BGColor.str "#FF9900") []
        (CellConfig.mk 0 0 10 8 0 0 JSValue.null none) = [] ∨
      ∃ c, SimpleCellRenderer.drawBackground (fun _ _ _ _ => "") (BGColor.str "#FF9900") []
        (CellConfig.mk 0 0 10 8 0 0 JSValue.null none) =
        [] ++ [.setFillStyle c, .fillRect (-1) (-1) 11 9]) ∧
    inBleedBox (CellConfig.mk 0 0 10 8 0 0 JSValue.null none) (-1) (-1) := by
  have h := drawBackground_bleed_box (fun _ _ _ _ => "") (BGColor.str "#FF9900") []
    (CellConfig.mk 0 0 10 8 0 0 JSValue.null none) (-1) (-1)
  exact ⟨h.1, h.2 (by decide)⟩

/-- The private configuration state of a `SimpleCellRenderer` instance:
`_backgroundColor` and `_border`. -/
structure SCRState where
  _backgroundColor : BGColor
  _border : BorderVal
deriving DecidableEq, Repr

/-- The setter's normalization `value = value || ''`: null and undefined are
treated the same as the empty string; on the declared `Color` type this maps
a falsy (empty-string) specification to the empty string. -/
def BGColor.normalize (v : BGColor) : BGColor :=
  if v.truthy then v else BGColor.str ""

/-- On the declared `Color` type the `value || ''` normalization is the
identity: the only falsy color is already the empty string. -/
theorem BGColor.normalize_id (v : BGColor) : v.normalize = v := by
  rcases v with s | fid
  · by_cases hs : s = "" <;> simp [BGColor.normalize, BGColor.truthy, hs]
  · rfl

/-- `set backgroundColor(value)`: normalize, bail if the stored value is
`===`-equal (emitting nothing), otherwise store the new value and emit the
`changed` signal exactly once with no payload.  Returns the updated state and
the number of `changed` emissions. -/
def SimpleCellRenderer.setBackgroundColor (s : SCRState) (value : BGColor) :
    SCRState × Nat :=
  let value := value.normalize
  if s._backgroundColor = value then (s, 0)
  else ({ s with _backgroundColor := value }, 1)

/-- Modelled from the spec: the source declares the private `_border` field of
`SimpleCellRenderer` but the border setter itself is absent from the provided
code; per the spec, mutating the border configuration follows the same
discipline as the background — a reference-equality no-op check, then store
and emit `changed` once with no payload. -/
def SimpleCellRenderer.setBorder (s : SCRState) (value : BorderVal) :
    SCRState × Nat :=
  if s._border = value then (s, 0)
  else ({ s with _border := value }, 1)

/-- C3: assigning a background color equal to the stored one leaves the state
unchanged and emits zero `changed` signals; assigning a different one stores it
and emits exactly one (payload-free) signal — and likewise for the border
configuration. -/
theorem setter_change_emission (s : SCRState) (v : BGColor) (b : BorderVal) :
    (v = s._backgroundColor → SimpleCellRenderer.setBackgroundColor s v = (s, 0)) ∧
    (v ≠ s._backgroundColor →
      SimpleCellRenderer.setBackgroundColor s v = ({ s with _backgroundColor := v }, 1)) ∧
    (b = s._border → SimpleCellRenderer.setBorder s b = (s, 0)) ∧
    (b ≠ s._border → SimpleCellRenderer.setBorder s b = ({ s with _border := b }, 1)) := by
  refine ⟨fun hv => ?_, fun hv => ?_, fun hb => ?_, fun hb => ?_⟩
  · simp [SimpleCellRenderer.setBackgroundColor, BGColor.normalize_id, hv]
  · simp [SimpleCellRenderer.setBackgroundColor, BGColor.normalize_id, Ne.symm hv]
  · simp [SimpleCellRenderer.setBorder, hb]
  · simp [SimpleCellRenderer.setBorder, Ne.symm hb]

/-- Witness for C3 at concrete states: re-assigning the stored empty color
emits nothing, assigning a new color or a new border emits exactly once. -/
theorem setter_change_emission_witness :
    SimpleCellRenderer.setBackgroundColor (SCRState.mk (BGColor.str "") BorderVal.noBorder)
      (BGColor.str "") = (SCRState.mk (BGColor.str "") BorderVal.noBorder, 0) ∧
    SimpleCellRenderer.setBackgroundColor (SCRState.mk (BGColor.str "") BorderVal.noBorder)
      (BGColor.str "#FF9900") =
      (SCRState.mk (BGColor.str "#FF9900") BorderVal.noBorder, 1) ∧
    SimpleCellRenderer.setBorder (SCRState.mk (BGColor.str "") BorderVal.noBorder)
      (BorderVal.ref 7) = (SCRState.mk (BGColor.str "") (BorderVal.ref 7), 1) :=
  ⟨(setter_change_emission (SCRState.mk (BGColor.str "") BorderVal.noBorder)
      (BGColor.str "") BorderVal.noBorder).1 rfl,
   (setter_change_emission (SCRState.mk (BGColor.str "") BorderVal.noBorder)
      (BGColor.str "#FF9900") BorderVal.noBorder).2.1 (by decide),
   (setter_change_emission (SCRState.mk (BGColor.str "") BorderVal.noBorder)
      (BGColor.str "") (BorderVal.ref 7)).2.2.2 (by decide)⟩

/-- `TextCellRenderer.drawContent`: bail when the cell value is falsy
(`if (!config.value) { return; }`), otherwise set a black fill style and a
middle text baseline and draw `config.value.toString()` at
`(config.x + 2, config.y + config.height / 2)`. -/
def TextCellRenderer.drawContent (gc : List DrawOp) (config : CellConfig) :
    List DrawOp :=
  if !config.value.truthy then gc
  else
    gc ++ [.setFillStyle "black", .setTextBaseline "middle",
           .fillText config.value.toStr ((config.x : ℚ) + 2)
             ((config.y : ℚ) + (config.height : ℚ) / 2)]

/-- C5: for every falsy cell value — `null`, `undefined`, `false`, the number
`0` and the empty string — `drawContent` leaves the surface unchanged; for
every truthy value it draws the value's string form with a middle baseline at
`(x + 2, y + height / 2)` (vertically centered, left-inset by 2 pixels). -/
theorem drawContent_falsy_skip (gc : List DrawOp) (config : CellConfig) :
    (config.value.truthy = false → TextCellRenderer.drawContent gc config = gc) ∧
    (config.value.truthy = false ↔
      config.value = .null ∨ config.value = .undefined ∨ config.value = .bool false ∨
      config.value = .num 0 ∨ config.value = .str "") ∧
    (config.value.truthy = true →
      TextCellRenderer.drawContent gc config =
        gc ++ [.setFillStyle "black", .setTextBaseline "middle",
               .fillText config.value.toStr ((config.x : ℚ) + 2)
                 ((config.y : ℚ) + (config.height : ℚ) / 2)]) := by
  refine ⟨fun hf => ?_, ?_, fun ht => ?_⟩
  · simp [TextCellRenderer.drawContent, hf]
  · rcases hv : config.value with _ | _ | b | n | s
    · simp [JSValue.truthy]
    · simp [JSValue.truthy]
    · rcases b with _ | _ <;> simp [JSValue.truthy]
    · constructor
      · intro h
        have : n = 0 := by simpa [JSValue.truthy] using h
        simp [this]
      · intro h
        have : n = 0 := by
          rcases h with h | h | h | h | h <;> simp_all
        simp [JSValue.truthy, this]
    · constructor
      · intro h
        have : s = "" := by simpa [JSValue.truthy] using h
        simp [this]
      · intro h
        have : s = "" := by
          rcases h with h | h | h | h | h <;> simp_all
        simp [JSValue.truthy, this]
  · simp [TextCellRenderer.drawContent, ht]

/-- Witness for C5: the numeric zero cell value paints nothing; the string
value draws the text ops at the centered position. -/
theorem drawContent_falsy_skip_witness :
    TextCellRenderer.drawContent [] (CellConfig.mk 4 6 30 10 0 0 (JSValue.num 0) none) = [] ∧
    TextCellRenderer.drawContent [] (CellConfig.mk 4 6 30 10 0 0 (JSValue.str "hi") none) =
      [] ++ [.setFillStyle "black", .setTextBaseline "middle",
             .fillText "hi" (((4 : Int) : ℚ) + 2) (((6 : Int) : ℚ) + ((10 : Int) : ℚ) / 2)] :=
  ⟨(drawContent_falsy_skip [] (CellConfig.mk 4 6 30 10 0 0 (JSValue.num 0) none)).1 (by decide),
   (drawContent_falsy_skip [] (CellConfig.mk 4 6 30 10 0 0 (JSValue.str "hi") none)).2.2 (by decide)⟩

/-- `TestModel.redOptions = { backgroundColor: '#FF9900' }`. -/
def TestModel.redOptions : RendererOptions :=
  RendererOptions.mk (some (BGColor.str "#FF9900")) none

/-- `TestModel.greenOptions = { backgroundColor: '#93C47D' }`. -/
def TestModel.greenOptions : RendererOptions :=
  RendererOptions.mk (some (BGColor.str "#93C47D")) none

/-- `TestModel.rowCount() { return 40; }` -/
def TestModel.rowCount : Int := 40

/-- `TestModel.columnCount() { return 20; }` -/
def TestModel.columnCount : Int := 20

/-- `TestModel.cellData`: sets `out.value` to the template string
`(row, column)`, returns early for cells outside rows 5..15 or columns 5..15,
and otherwise installs `redOptions` for odd columns (`column % 2` truthy) and
`greenOptions` for even columns. -/
def TestModel.cellData (row column : Int) (out : ICellData) : ICellData :=
  let out := { out with
    value := JSValue.str ("(" ++ toString row ++ ", " ++ toString column ++ ")") }
  if row < 5 ∨ row > 15 ∨ column < 5 ∨ column > 15 then out
  else if column % 2 ≠ 0 then { out with options := some TestModel.redOptions }
  else { out with options := some TestModel.greenOptions }

/-- `SimpleCellRenderer.drawBorder` (demo variant of `cellrenderer.ts`): for
the cell at `row === 10 && column === 10` it strokes a red rectangle of line
width 2 at `rect(x - 0.0, y - 0.0, width - 1, height - 1)`; for every other
cell it draws nothing. -/
def SimpleCellRenderer.drawBorder (gc : List DrawOp) (config : CellConfig) :
    List DrawOp :=
  if config.row = 10 ∧ config.column = 10 then
    gc ++ [.beginPath, .rect config.x config.y (config.width - 1) (config.height - 1),
           .setStrokeStyle "red", .setLineWidth 2, .stroke]
  else gc

/-- A color environment for the demo; the demo options use only string colors,
so no color-function reference is ever consulted. -/
def demoEnv : ColorEnv := fun _ _ _ _ => ""

/-- The fresh output record handed to `cellData` before population. -/
def emptyCellData : ICellData := ICellData.mk JSValue.null "" none

/-- The demo `CellConfig` for a cell: geometry from the demo headers
(`TestHeader(20)` for rows, `TestHeader(60)` for columns) and data from
`TestModel.cellData`. -/
def demoConfig (row column : Int) : CellConfig :=
  let out := TestModel.cellData row column emptyCellData
  CellConfig.mk ((TestHeader.mk 60).sectionPosition column)
    ((TestHeader.mk 20).sectionPosition row) 60 20 row column out.value out.options

/-- C6 counterexample: in the demo model, cell `(10, 10)` sits in an even
column, so its options are `greenOptions` and the background resolves to
`#93C47D`, not to `#FF9900` as the claim states. -/
theorem demo_cell_10_10_not_red :
    specResolvedColor demoEnv (demoConfig 10 10) (BGColor.str "") = some "#93C47D" ∧
    specResolvedColor demoEnv (demoConfig 10 10) (BGColor.str "") ≠ some "#FF9900" := by
  decide

/-- C6 (amended): demo cell `(10, 10)` resolves to a visible green `#93C47D`
background and receives the red bordered outline from `drawBorder`, while cell
`(0, 0)` resolves to no painted background at all. -/
theorem demo_cell_backgrounds :
    SimpleCellRenderer.drawBackground demoEnv (BGColor.str "") [] (demoConfig 10 10) =
      [.setFillStyle "#93C47D", .fillRect 599 199 61 21] ∧
    SimpleCellRenderer.drawBorder [] (demoConfig 10 10) =
      [.beginPath, .rect 600 200 59 19, .setStrokeStyle "red", .setLineWidth 2, .stroke] ∧
    SimpleCellRenderer.drawBackground demoEnv (BGColor.str "") [] (demoConfig 0 0) = [] := by
  decide

namespace SingleCall

/-- The single-call variant of `SimpleCellRenderer`: a record of the three
overridable layered draw methods (subclasses may replace any of them), each a
transformer of the graphics journal for a given cell configuration. -/
structure SimpleCellRenderer where
  drawBackground : List DrawOp → CellConfig → List DrawOp
  drawContent : List DrawOp → CellConfig → List DrawOp
  drawBorder : List DrawOp → CellConfig → List DrawOp

/-- `SimpleCellRenderer.paint`, translated line by line: draw the cell
background, then the cell content, then finally the cell border, all on the
same graphics context and configuration. -/
def paint (r : SimpleCellRenderer) (gc : List DrawOp) (config : CellConfig) :
    List DrawOp :=
  let gc := r.drawBackground gc config
  let gc := r.drawContent gc config
  r.drawBorder gc config

/-- Spec-worded three-call layered variant: apply `drawBackground`,
`drawContent` and `drawBorder` as three separate calls in that fixed order on
the same surface and cell configuration. -/
def layeredSequence (r : SimpleCellRenderer) (gc : List DrawOp) (config : CellConfig) :
    List DrawOp :=
  r.drawBorder (r.drawContent (r.drawBackground gc config) config) config

/-- The default method bodies of the single-call `SimpleCellRenderer`: empty
background and border draws, and the text-drawing content of the source. -/
def defaultRenderer : SimpleCellRenderer :=
  SimpleCellRenderer.mk (fun gc _ => gc)
    (fun gc config =>
      if !config.value.truthy then gc
      else
        gc ++ [.setFillStyle "black", .setTextBaseline "middle",
               .fillText config.value.toStr ((config.x : ℚ) + 2)
                 ((config.y : ℚ) + (config.height : ℚ) / 2)])
    (fun gc _ => gc)

end SingleCall

/-- C8: for every renderer (any overrides of the three layered methods), every
surface and every cell configuration, the single-call `paint` produces exactly
the surface obtained by the three-call layered sequence
`drawBackground`, then `drawContent`, then `drawBorder`. -/
theorem paint_sequences_layers (r : SingleCall.SimpleCellRenderer)
    (gc : List DrawOp) (config : CellConfig) :
    SingleCall.paint r gc config = SingleCall.layeredSequence r gc config := rfl

/-- The payload kind carried by one data-model change signal: none, a section
range, a section range plus destination, or a rectangular cell range. -/
inductive PayloadKind where
  | noPayload
  | sectionRange
  | sectionRangeMove
  | cellRange
deriving DecidableEq, Repr

/-- The change-notification signals installed on `DataModel.prototype` by the
`defineSignal` calls of `datamodel.ts`, in source order, each with the payload
type of its `ISignal` declaration. -/
def dataModelSignals : List (String × PayloadKind) :=
  [("modelChanged", .noPayload),
   ("rowsInserted", .sectionRange),
   ("rowsRemoved", .sectionRange),
   ("rowsMoved", .sectionRangeMove),
   ("columnsInserted", .sectionRange),
   ("columnsRemoved", .sectionRange),
   ("columnsMoved", .sectionRangeMove),
   ("rowHeaderDataChanged", .sectionRange),
   ("columnHeaderDataChanged", .sectionRange),
   ("cellDataChanged", .cellRange)]

/-- C9 counterexample: the data model's change-notification interface does not
consist of nine signals — `datamodel.ts` declares ten (`rowsMoved` and
`columnsMoved` are distinct members of the taxonomy). -/
theorem dataModel_not_nine_signals : ¬ dataModelSignals.length = 9 := by decide

/-- C9 (amended): the interface consists of exactly ten signals, and each
carries the payload of the taxonomy: none for `modelChanged`; a section range
for insertions, removals and header-data changes; a section range plus
destination for moves; a cell range for `cellDataChanged`. -/
theorem dataModel_ten_signals :
    dataModelSignals.length = 10 ∧
    dataModelSignals.lookup "modelChanged" = some .noPayload ∧
    dataModelSignals.lookup "rowsInserted" = some .sectionRange ∧
    dataModelSignals.lookup "rowsRemoved" = some .sectionRange ∧
    dataModelSignals.lookup "rowsMoved" = some .sectionRangeMove ∧
    dataModelSignals.lookup "columnsInserted" = some .sectionRange ∧
    dataModelSignals.lookup "columnsRemoved" = some .sectionRange ∧
    dataModelSignals.lookup "columnsMoved" = some .sectionRangeMove ∧
    dataModelSignals.lookup "rowHeaderDataChanged" = some .sectionRange ∧
    dataModelSignals.lookup "columnHeaderDataChanged" = some .sectionRange ∧
    dataModelSignals.lookup "cellDataChanged" = some .cellRange := by
  decide

/-- The private fields of a `DataGrid` widget instance; the attached data
model and headers are object references (`none` models JavaScript `null`). -/
structure DataGridState where
  _tick : Int
  _model : Option Nat
  _rowHeader : Option Nat
  _columnHeader : Option Nat
deriving DecidableEq, Repr

/-- `DataGrid`'s `get model() { return null; }` — the getter returns the null
literal and never consults the private `_model` field. -/
def DataGrid.getModel (_s : DataGridState) : Option Nat := none

/-- `DataGrid`'s model setter: `value = value || null` (identity on object
references, null for all falsy inputs), bail when the stored reference is
`===`-equal, otherwise store the value in the private `_model` field. -/
def DataGrid.setModel (s : DataGridState) (value : Option Nat) : DataGridState :=
  if s._model = value then s else { s with _model := value }

/-- C10: after any sequence of assignments to the `model` property, reading
the property yields `null`, even though each assignment does store its value
in the private `_model` field — the getter never consults what the setter
stores. -/
theorem dataGrid_model_getter_null (s : DataGridState)
    (assignments : List (Option Nat)) :
    DataGrid.getModel (List.foldl DataGrid.setModel s assignments) = none ∧
    ∀ v : Option Nat, (DataGrid.setModel s v)._model = v := by
  refine ⟨rfl, fun v => ?_⟩
  unfold DataGrid.setModel
  by_cases h : s._model = v <;> simp [h]
